import Mathlib

/- Shallow embedding of tomo/32id/txm.py.

The embedding covers the TxmPV descriptor (the control-point proxy with its
permit_required and wait policy flags, cached curr_value and put_complete
flag), the TXM blocking wait primitive wait_pv, the write-batch coordinator
wait_pvs / flush_pvs together with the class-level pv_queue, and the
move_energy sequence.

PV values and wall-clock durations are modelled as exact rationals.  The
external EPICS transport is modelled by explicit inputs: the live value a
read would fetch, a trace of values and elapsed times seen by successive
polls, and a schedule saying when each queued write reports completion.
Loops that busy-poll in the source are given explicit fuel; running out of
fuel (the None result) models the loop still blocking. -/

/-- Exceptions raised by the embedded code.  timeoutError mirrors
exceptions.TimeoutError whose message is built from the attribute name, the
target value and the timeout duration; energyError mirrors
exceptions.EnergyError whose message is built from the attempted energy and
both range bounds; permitError mirrors exceptions.PermitError raised by the
permit_required decorator; typeError is the Python TypeError raised when a
call does not match a function signature. -/
inductive Exc where
  | timeoutError (pvName : String) (target timeout : ℚ)
  | energyError (energy lower upper : ℚ)
  | permitError
  | typeError
deriving DecidableEq

/-- Static configuration of one TxmPV descriptor, the parameters of
TxmPV.__init__: the PV name, the optional dtype coercion, and the
permit_required and wait policy flags.  The default parameter of __init__
is folded into the initial PvState.curr_value, exactly where __init__
stores it. -/
structure PvConfig where
  name : String
  dtype : Option (ℚ → ℚ)
  permit_required : Bool
  wait : Bool

/-- Mutable state of one TxmPV descriptor: the cached value curr_value and
the completion flag put_complete (put_complete false means a write is
pending). -/
structure PvState where
  curr_value : ℚ
  put_complete : Bool
deriving DecidableEq

/-- Everything observable about one call to TxmPV.__set__: the descriptor
state after the call returns (or after the exception propagates), whether
the proxy was appended to txm.pv_queue, whether a transport write
(pv.put) was issued, whether warnings.warn was called, and the exception
propagating out of the call, if any.  Field order: st, queued,
transport_write, warning, raised. -/
structure SetOutcome where
  st : PvState
  queued : Bool
  transport_write : Bool
  warning : Bool
  raised : Option Exc
deriving DecidableEq

/-- TxmPV.__set__ (source lines 106 to 132).  The permit check only fires
when the session is attached: the source condition is
txm.is_attached and self.permit_required and not txm.has_permit.  When it
fires, curr_value is left alone, warnings.warn is called, and, the session
being attached, neither the transport-write branch nor the simulation
branch runs, so put_complete is also left alone.  Otherwise curr_value is
set to val; if attached, put_complete is cleared, the proxy is queued and
pv.put is issued — in the wait branch the source then calls
self.complete_put() with no argument although complete_put requires a
positional txm argument, so Python raises TypeError there, before
put_complete can be set back to True; if not attached, a completed put is
simulated. -/
def TxmPV.set (cfg : PvConfig) (is_attached has_permit : Bool) (st : PvState) (val : ℚ) :
    SetOutcome :=
  if is_attached && cfg.permit_required && !has_permit then
    ⟨st, false, false, true, none⟩
  else
    if is_attached then
      if cfg.wait then
        ⟨⟨val, false⟩, true, true, false, some Exc.typeError⟩
      else
        ⟨⟨val, false⟩, true, true, false, none⟩
    else
      ⟨⟨val, true⟩, false, false, false, none⟩

/-- The dtype coercion applied by TxmPV.__get__: self.dtype(value) when a
dtype was declared, the value unchanged otherwise. -/
def applyDtype (dtype : Option (ℚ → ℚ)) (v : ℚ) : ℚ :=
  match dtype with
  | some f => f v
  | none => v

/-- TxmPV.__get__ (source lines 85 to 93): when attached, fetch the live
value from the transport into curr_value; in either case apply the dtype
coercion, store the result back into curr_value and return it. -/
def TxmPV.get (cfg : PvConfig) (is_attached : Bool) (st : PvState) (liveValue : ℚ) :
    PvState × ℚ :=
  let c1 := if is_attached then liveValue else st.curr_value
  let c2 := applyDtype cfg.dtype c1
  (⟨c2, st.put_complete⟩, c2)

/-- Possible outcomes of one call to TXM.wait_pv: the explicit return True,
the implicit Python return None (the path taken when is_attached is false:
the while loop guard is false so the loop body never runs and the function
falls off its end), or a raised exception. -/
inductive WaitPvResult where
  | retTrue
  | retNone
  | raised (e : Exc)
deriving DecidableEq

/-- The polling loop of TXM.wait_pv (source lines 411 to 426), for an
attached session.  readAt k is the value getattr(self, pv_name) yields at
the k-th poll and elapsedAt k is the wall-clock time elapsed since
startTime at the k-th poll (the source computes it as
time.time() - startTime).  The source tests the timeout with
timeout > -1, not timeout >= 0.  Fuel bounds how many polls we model; a
none result means the loop is still running after that many polls.  On
success the result records the poll index at which the loop stopped. -/
def wait_pv_runAux (pvName : String) (target timeout : ℚ) (readAt elapsedAt : ℕ → ℚ) :
    ℕ → ℕ → Option (ℕ × WaitPvResult)
  | 0, _ => none
  | fuel + 1, k =>
    if readAt k ≠ target then
      if timeout > -1 then
        if elapsedAt k ≥ timeout then
          some (k, WaitPvResult.raised (Exc.timeoutError pvName target timeout))
        else
          wait_pv_runAux pvName target timeout readAt elapsedAt fuel (k + 1)
      else
        wait_pv_runAux pvName target timeout readAt elapsedAt fuel (k + 1)
    else
      some (k, WaitPvResult.retTrue)

/-- TXM.wait_pv (source lines 378 to 426).  When the session is attached the
polling loop runs; when it is not attached the loop guard
while(True and self.is_attached) is false at once and the function falls
off its end, which in Python returns None. -/
def wait_pv (is_attached : Bool) (pvName : String) (target timeout : ℚ)
    (readAt elapsedAt : ℕ → ℚ) (fuel : ℕ) : Option (ℕ × WaitPvResult) :=
  if is_attached then wait_pv_runAux pvName target timeout readAt elapsedAt fuel 0
  else some (0, WaitPvResult.retNone)

/-- The polling loop of TXM.flush_pvs (source lines 367 to 376): starting at
poll tick t, keep polling until every queued proxy reports put_complete
(completeAt t pv is the put_complete flag of proxy pv at tick t, flipped
asynchronously by the transport completion callbacks).  Returns the tick at
which the queue drained, or none if the fuel ran out first (still
blocking). -/
def flushAux (completeAt : ℕ → String → Bool) (q : List String) :
    ℕ → ℕ → Option ℕ
  | 0, _ => none
  | fuel + 1, t =>
    if q.all (fun pv => completeAt t pv) then some t
    else flushAux completeAt q fuel (t + 1)

/-- The queue state shared by TXM sessions.  TXM.pv_queue (source line 221)
is a class-level list; an individual session gets its own list only when
flush_pvs or wait_pvs assigns self.pv_queue = [], which creates an instance
attribute shadowing the class one.  classQueue is the class-level list and
instQueues i is session i's instance attribute when it exists. -/
structure MultiState where
  classQueue : List String
  instQueues : ℕ → Option (List String)

/-- Python attribute lookup for txm.pv_queue on session i: the instance
attribute if present, else the class attribute. -/
def MultiState.currentQueue (st : MultiState) (i : ℕ) : List String :=
  (st.instQueues i).getD st.classQueue

/-- txm.pv_queue.append(self) on session i: list.append mutates in place, so
when session i has no instance attribute the shared class-level list grows,
visibly for every other session still reading the class attribute. -/
def MultiState.appendPv (st : MultiState) (i : ℕ) (pv : String) : MultiState :=
  match st.instQueues i with
  | some q => ⟨st.classQueue, fun j => if j = i then some (q ++ [pv]) else st.instQueues j⟩
  | none => ⟨st.classQueue ++ [pv], st.instQueues⟩

/-- One TxmPV write issued through session i: run TxmPV.__set__ and, when it
registers the proxy (txm.pv_queue.append), append the PV name to session
i's queue. -/
def TXM.txmWrite (st : MultiState) (i : ℕ) (cfg : PvConfig) (is_attached has_permit : Bool)
    (pvSt : PvState) (val : ℚ) : MultiState × SetOutcome :=
  let out := TxmPV.set cfg is_attached has_permit pvSt val
  (if out.queued then st.appendPv i cfg.name else st, out)

/-- TXM.flush_pvs on session i (source lines 367 to 376): block until every
member of the queue visible to session i reports put_complete, then assign
self.pv_queue = [], creating or overwriting session i's instance
attribute.  Returns the updated state and the tick at which the queue
drained. -/
def TXM.flushSession (completeAt : ℕ → String → Bool) (st : MultiState) (i fuel t0 : ℕ) :
    Option (MultiState × ℕ) :=
  (flushAux completeAt (st.currentQueue i) fuel t0).map
    (fun t => (⟨st.classQueue, fun j => if j = i then some [] else st.instQueues j⟩, t))

/-- Entering the TXM.wait_pvs context manager on session i (source lines 348
to 363): first self.flush_pvs() — which blocks until the previous batch has
drained — then self.pv_queue = [], so the new batch starts empty. -/
def TXM.wait_pvs_open (completeAt : ℕ → String → Bool) (st : MultiState) (i fuel t0 : ℕ) :
    Option (MultiState × ℕ) :=
  (TXM.flushSession completeAt st i fuel t0).map
    (fun p => (⟨p.1.classQueue, fun j => if j = i then some [] else p.1.instQueues j⟩, p.2))

/-- The names of every TxmPV descriptor declared on class TXM (source lines
231 to 335), in declaration order.  Commented-out descriptors are not
included.  Note that no descriptor named ZpLocation exists. -/
def txmPvNames : List String :=
  ["Cam1_ImageMode", "Cam1_ArrayCallbacks", "Cam1_AcquirePeriod", "Cam1_TriggerMode",
   "Cam1_SoftwareTrigger", "Cam1_AcquireTime", "Cam1_FrameRateOnOff", "Cam1_FrameType",
   "Cam1_NumImages", "Cam1_Acquire", "CCD_Motor",
   "HDF1_AutoSave", "HDF1_DeleteDriverFile", "HDF1_EnableCallbacks",
   "HDF1_BlockingCallbacks", "HDF1_FileWriteMode", "HDF1_NumCapture", "HDF1_Capture",
   "HDF1_Capture_RBV", "HDF1_FileName", "HDF1_FullFileName_RBV", "HDF1_FileTemplate",
   "HDF1_ArrayPort",
   "Motor_SampleX", "Motor_SampleY", "Motor_SampleRot", "Motor_SampleZ",
   "Motor_X_Tile", "Motor_Y_Tile",
   "ShutterA_Open", "ShutterA_Close", "ShutterA_Move_Status",
   "ShutterB_Open", "ShutterB_Close", "ShutterB_Move_Status", "ExternalShutter_Trigger",
   "Fly_ScanDelta", "Fly_StartPos", "Fly_EndPos", "Fly_SlewSpeed", "Fly_Taxi",
   "Fly_Run", "Fly_ScanControl", "Fly_Calc_Projections",
   "Reset_Theta", "Proc_Theta", "Theta_Array", "Theta_Cnt",
   "Image1_Callbacks", "ExternShutterExposure", "SetSoftGlueForStep",
   "ExternShutterDelay", "Interferometer", "Interferometer_Update",
   "Interferometer_Reset", "Interferometer_Cnt", "Interferometer_Arr",
   "Interferometer_Proc_Arr", "Interferometer_Val", "Interferometer_Mode",
   "Interferometer_Acquire",
   "Proc1_Callbacks", "Proc1_ArrayPort", "Proc1_Filter_Enable", "Proc1_Filter_Type",
   "Proc1_Num_Filter", "Proc1_Reset_Filter", "Proc1_AutoReset_Filter",
   "Proc1_Filter_Callbacks",
   "TIFF1_AutoSave", "TIFF1_DeleteDriverFile", "TIFF1_EnableCallbacks",
   "TIFF1_BlockingCallbacks", "TIFF1_FileWriteMode", "TIFF1_NumCapture", "TIFF1_Capture",
   "TIFF1_FullFileName_RBV", "TIFF1_FileNumber", "TIFF1_FileName", "TIFF1_ArrayPort",
   "DCMmvt", "GAPputEnergy", "EnergyWait", "DCMputEnergy"]

/-- Observable steps of a TXM sequence: a control-point write dispatched to
TxmPV.__set__, a plain instance-attribute assignment (no descriptor, so no
hardware effect), entering and leaving a wait_pvs batch, and a wait_pv
call. -/
inductive MoveEvent where
  | cpWrite (pv : String) (v : ℚ)
  | plainAttrSet (attr : String) (v : ℚ)
  | batchOpen
  | batchClose
  | waitFor (pv : String) (target timeout : ℚ)
deriving DecidableEq

/-- Python attribute assignment on a TXM instance: if the attribute name is
one of the TxmPV descriptors declared on the class, the assignment goes
through TxmPV.__set__ and is a control-point write; otherwise it merely
creates a plain instance attribute with no hardware side effect. -/
def setAttrEvent (attr : String) (v : ℚ) : MoveEvent :=
  if attr ∈ txmPvNames then MoveEvent.cpWrite attr v else MoveEvent.plainAttrSet attr v

/-- The energy range of the instrument, TXM.E_RANGE = (5, 10) keV. -/
def E_RANGE : ℚ × ℚ := (5, 10)

/-- The event trace of the body of TXM.move_energy after the range check has
passed (source lines 475 to 507), with the values the source computes.
prev_energy and curr_CCD are the values read from DCMputEnergy and
CCD_Motor; the floating-point math.sqrt is passed in as sqrtFn and the
remaining arithmetic is exact rational arithmetic.  The reassignments of
landa and ZP_focal in the source appear here as landa2 and ZP_focal2.
Every assignment of the source goes through setAttrEvent, so whether it is
a control-point write or a plain attribute assignment is decided by the
descriptor catalog, exactly as Python attribute assignment does. -/
def move_energy_writes (energy : ℚ) (constant_mag : Bool) (gap_offset : ℚ)
    (prev_energy curr_CCD zp_diameter drn : ℚ) (sqrtFn : ℚ → ℚ) : List MoveEvent :=
  let landa := 1240 / (prev_energy * 1000)
  let ZP_focal := zp_diameter * drn / (1000 * landa)
  let inner := sqrtFn (curr_CCD ^ 2 - 4 * curr_CCD * ZP_focal)
  let D := (curr_CCD + inner) / 2
  let mag := (D - ZP_focal) / ZP_focal
  let landa2 := 1240 / (energy * 1000)
  let ZP_focal2 := zp_diameter * drn / (1000 * landa2)
  let dist_ZP_ccd := mag * ZP_focal2 + ZP_focal2
  let ZP_WD := dist_ZP_ccd * ZP_focal2 / (dist_ZP_ccd - ZP_focal2)
  let new_CCD := ZP_WD + dist_ZP_ccd
  [setAttrEvent "DCMmvt" 1]
    ++ (if constant_mag then [setAttrEvent "CCD_Motor" new_CCD] else [])
    ++ [MoveEvent.batchOpen,
        setAttrEvent "ZpLocation" ZP_WD,
        setAttrEvent "DCMputEnergy" energy,
        setAttrEvent "GAPputEnergy" energy,
        MoveEvent.batchClose,
        MoveEvent.waitFor "EnergyWait" 0 20,
        MoveEvent.batchOpen,
        setAttrEvent "GAPputEnergy" (energy + gap_offset),
        MoveEvent.batchClose,
        MoveEvent.waitFor "EnergyWait" 0 20,
        setAttrEvent "DCMmvt" 0]

/-- TXM.move_energy under the permit_required decorator (source lines 144 to
164 and 450 to 507): without permit the decorator raises PermitError before
the body runs; with an energy outside E_RANGE the body raises EnergyError —
carrying the attempted value and both bounds — before any read or write;
otherwise the body performs the trace in move_energy_writes. -/
def move_energy (has_permit : Bool) (energy : ℚ) (constant_mag : Bool) (gap_offset : ℚ)
    (prev_energy curr_CCD zp_diameter drn : ℚ) (sqrtFn : ℚ → ℚ) :
    Except Exc (List MoveEvent) :=
  if has_permit then
    if E_RANGE.1 ≤ energy ∧ energy ≤ E_RANGE.2 then
      Except.ok (move_energy_writes energy constant_mag gap_offset prev_energy curr_CCD
        zp_diameter drn sqrtFn)
    else
      Except.error (Exc.energyError energy E_RANGE.1 E_RANGE.2)
  else
    Except.error Exc.permitError

/-- Events of the first wait_pvs batch: everything between the first
batchOpen and the following batchClose. -/
def isBatchOpen : MoveEvent → Bool
  | MoveEvent.batchOpen => true
  | _ => false

/-- True exactly on the batchClose event. -/
def isBatchClose : MoveEvent → Bool
  | MoveEvent.batchClose => true
  | _ => false

/-- The events inside the first wait_pvs batch of a trace. -/
def firstBatchEvents (evs : List MoveEvent) : List MoveEvent :=
  ((evs.dropWhile (fun e => !isBatchOpen e)).drop 1).takeWhile (fun e => !isBatchClose e)

/-- The control-point writes registered during the first batch: on an
attached session with permit every cpWrite inside the batch appends its
proxy to pv_queue, so these are exactly the writes batch close waits on. -/
def firstBatchCpWrites (evs : List MoveEvent) : List String :=
  (firstBatchEvents evs).filterMap (fun e =>
    match e with
    | MoveEvent.cpWrite pv _ => some pv
    | _ => none)

/-- The plain instance-attribute assignments inside the first batch, which
register nothing and move no hardware. -/
def firstBatchPlainAttrs (evs : List MoveEvent) : List String :=
  (firstBatchEvents evs).filterMap (fun e =>
    match e with
    | MoveEvent.plainAttrSet a _ => some a
    | _ => none)

/-- Sample configuration used by witnesses: the DCMmvt descriptor,
TxmPV with permit_required=True. -/
def dcmMvtCfg : PvConfig := ⟨"DCMmvt", none, true, false⟩

/-- Sample descriptor state used by witnesses. -/
def pvState0 : PvState := ⟨5, true⟩

/-- Sample completion schedule for batch witnesses: every write reports
complete from tick 1 on. -/
def completeAtW : ℕ → String → Bool := fun t _ => decide (1 ≤ t)

/-- Sample queue state for batch witnesses: one pending write in the shared
class-level queue, no session has an instance queue yet. -/
def flushDemoSt : MultiState := ⟨["DCMmvt"], fun _ => none⟩

/-- The state after TXM.flush_pvs runs on session 0 of flushDemoSt. -/
def flushDemoMid : MultiState :=
  ⟨flushDemoSt.classQueue, fun j => if j = 0 then some [] else flushDemoSt.instQueues j⟩

/-- The state after entering TXM.wait_pvs on session 0 of flushDemoSt. -/
def flushDemoEnd : MultiState :=
  ⟨flushDemoMid.classQueue, fun j => if j = 0 then some [] else flushDemoMid.instQueues j⟩

/-- Sample multi-session state for the C10 witness: empty shared queue, two
sessions, neither with an instance queue. -/
def c10St : MultiState := ⟨[], fun _ => none⟩

/-- C1 counterexample: the claim quantifies over all sessions, attached or
not, but on an UNATTACHED session without permit a permit_required write is
not suppressed — the source permit check requires txm.is_attached — so
curr_value does change to the written value and no warning is raised.
Concretely: writing 7 to a permit_required point (ShutterA_Open) on an
unattached permitless session whose cached value is 0 leaves curr_value at
7, not 0, and warns nothing. -/
theorem C1_counterexample :
    ¬ ((TxmPV.set ⟨"ShutterA_Open", none, true, false⟩ false false ⟨0, true⟩ 7).st.curr_value = 0
        ∧ (TxmPV.set ⟨"ShutterA_Open", none, true, false⟩ false false ⟨0, true⟩ 7).warning
            = true) := by
  decide

/-- C1 (amended): on an ATTACHED session, a write to a permit_required point
without permit leaves curr_value and put_complete unchanged, issues no
transport write, registers nothing in the queue, raises a user-visible
warning, and throws no exception. -/
theorem C1_attached_permit_soft_fail (cfg : PvConfig) (st : PvState) (val : ℚ)
    (hreq : cfg.permit_required = true) :
    (TxmPV.set cfg true false st val).st.curr_value = st.curr_value ∧
    (TxmPV.set cfg true false st val).st.put_complete = st.put_complete ∧
    (TxmPV.set cfg true false st val).transport_write = false ∧
    (TxmPV.set cfg true false st val).queued = false ∧
    (TxmPV.set cfg true false st val).warning = true ∧
    (TxmPV.set cfg true false st val).raised = none := by
  simp [TxmPV.set, hreq]

/-- C1 witness: the amended statement evaluated on the DCMmvt descriptor,
cached value 5, attached permitless session, written value 9. -/
theorem C1_witness :
    dcmMvtCfg.permit_required = true ∧
    ((TxmPV.set dcmMvtCfg true false pvState0 9).st.curr_value = pvState0.curr_value ∧
     (TxmPV.set dcmMvtCfg true false pvState0 9).st.put_complete = pvState0.put_complete ∧
     (TxmPV.set dcmMvtCfg true false pvState0 9).transport_write = false ∧
     (TxmPV.set dcmMvtCfg true false pvState0 9).queued = false ∧
     (TxmPV.set dcmMvtCfg true false pvState0 9).warning = true ∧
     (TxmPV.set dcmMvtCfg true false pvState0 9).raised = none) :=
  ⟨rfl, C1_attached_permit_soft_fail dcmMvtCfg pvState0 9 rfl⟩

/-- C2: on an unattached session wait_pv never enters its polling loop and
never raises, but it does NOT return True: the function falls off its end
and Python returns None, contradicting its own docstring (This function
immediately returns True if self.is_attached is False).  The theorem
evaluates the code at the failing input: for every attribute, target,
timeout and poll trace the result is the implicit None at poll index 0. -/
theorem C2_unattached_returns_none (pvName : String) (target timeout : ℚ)
    (readAt elapsedAt : ℕ → ℚ) (fuel : ℕ) :
    wait_pv false pvName target timeout readAt elapsedAt fuel
      = some (0, WaitPvResult.retNone) := rfl

/-- C3: a write through a wait=True descriptor on an attached session with
permit does NOT complete normally: after the blocking pv.put the source
calls self.complete_put() with no argument, although complete_put requires
a positional txm argument, so Python raises TypeError and put_complete is
left False.  Evaluated here on a wait=True point with cached value 500,
written value 400. -/
theorem C3_wait_policy_raises :
    (TxmPV.set ⟨"CCD_Motor", none, false, true⟩ true true ⟨500, true⟩ 400).raised
        = some Exc.typeError
    ∧ (TxmPV.set ⟨"CCD_Motor", none, false, true⟩ true true ⟨500, true⟩ 400).st.put_complete
        = false := ⟨rfl, rfl⟩

/-- C8: for every descriptor write on an unattached session, put_complete is
True immediately on return (simulated completion) and a subsequent read on
the same unattached session returns the written value after the declared
dtype coercion, if any. -/
theorem C8_sim_write_read (cfg : PvConfig) (has_permit : Bool) (st : PvState) (val live : ℚ) :
    (TxmPV.set cfg false has_permit st val).st.put_complete = true
    ∧ (TxmPV.get cfg false (TxmPV.set cfg false has_permit st val).st live).2
        = applyDtype cfg.dtype val := by
  simp [TxmPV.set, TxmPV.get]

/-- Helper: with timeout at most -1 the source condition timeout > -1 is
false on every iteration, so the polling loop can only stop by returning
True at a poll whose value equals the target. -/
theorem wait_pv_no_timeout_aux (pvName : String) (target timeout : ℚ)
    (readAt elapsedAt : ℕ → ℚ) (hT : timeout ≤ -1) :
    ∀ fuel i k r, wait_pv_runAux pvName target timeout readAt elapsedAt fuel i = some (k, r) →
      r = WaitPvResult.retTrue ∧ readAt k = target := by
  intro fuel
  induction fuel with
  | zero => intro i k r h; simp [wait_pv_runAux] at h
  | succ n ih =>
    intro i k r h
    simp only [wait_pv_runAux] at h
    by_cases hv : readAt i ≠ target
    · rw [if_pos hv] at h
      have hnt : ¬ (timeout > -1) := by push_neg; exact hT
      rw [if_neg hnt] at h
      exact ih (i + 1) k r h
    · rw [if_neg hv] at h
      push_neg at hv
      simp only [Option.some.injEq, Prod.mk.injEq] at h
      obtain ⟨rfl, rfl⟩ := h
      exact ⟨rfl, hv⟩

/-- Helper: with a nonnegative timeout and a value that never equals the
target, whenever the polling loop stops it stops by raising the timeout
error carrying the attribute name, the target and the timeout, at a poll
whose elapsed time has reached the timeout, every earlier poll having been
below it. -/
theorem wait_pv_sound_aux (pvName : String) (target T : ℚ) (readAt elapsedAt : ℕ → ℚ)
    (hT : 0 ≤ T) (hne : ∀ k, readAt k ≠ target) :
    ∀ fuel i k r, wait_pv_runAux pvName target T readAt elapsedAt fuel i = some (k, r) →
      r = WaitPvResult.raised (Exc.timeoutError pvName target T) ∧ i ≤ k ∧ T ≤ elapsedAt k ∧
      ∀ j, i ≤ j → j < k → elapsedAt j < T := by
  have hT1 : T > -1 := lt_of_lt_of_le (by norm_num) hT
  intro fuel
  induction fuel with
  | zero => intro i k r h; simp [wait_pv_runAux] at h
  | succ n ih =>
    intro i k r h
    simp only [wait_pv_runAux] at h
    rw [if_pos (hne i), if_pos hT1] at h
    by_cases he : elapsedAt i ≥ T
    · rw [if_pos he] at h
      simp only [Option.some.injEq, Prod.mk.injEq] at h
      obtain ⟨rfl, rfl⟩ := h
      exact ⟨rfl, le_refl i, he,
        fun j h1 h2 => (Nat.lt_irrefl i (Nat.lt_of_le_of_lt h1 h2)).elim⟩
    · rw [if_neg he] at h
      push_neg at he
      obtain ⟨hr, hik, hTe, hb⟩ := ih (i + 1) k r h
      refine ⟨hr, by omega, hTe, fun j h1 h2 => ?_⟩
      rcases Nat.eq_or_lt_of_le h1 with h3 | h3
      · subst h3; exact he
      · exact hb j h3 h2

/-- Helper: with a nonnegative timeout and a value that never equals the
target, the polling loop does stop once some reachable poll has elapsed
time at least the timeout. -/
theorem wait_pv_term_aux (pvName : String) (target T : ℚ) (readAt elapsedAt : ℕ → ℚ)
    (hT : 0 ≤ T) (hne : ∀ k, readAt k ≠ target) :
    ∀ fuel i k, i ≤ k → k < i + fuel → T ≤ elapsedAt k →
      ∃ p, wait_pv_runAux pvName target T readAt elapsedAt fuel i = some p := by
  have hT1 : T > -1 := lt_of_lt_of_le (by norm_num) hT
  intro fuel
  induction fuel with
  | zero => intro i k h1 h2 h3; omega
  | succ n ih =>
    intro i k h1 h2 h3
    simp only [wait_pv_runAux]
    rw [if_pos (hne i), if_pos hT1]
    by_cases he : elapsedAt i ≥ T
    · rw [if_pos he]
      exact ⟨(i, WaitPvResult.raised (Exc.timeoutError pvName target T)), rfl⟩
    · rw [if_neg he]
      have hki : i ≠ k := by
        rintro rfl
        exact he h3
      exact ih (i + 1) k (by omega) (by omega) h3

/-- C5 counterexample: the claim says every timeout strictly below 0 means
wait forever, but the source tests timeout > -1, so with timeout -1/2 on an
attached session whose value never matches, the very first poll (elapsed
1/100 second, at least -1/2) raises the Timeout error. -/
theorem C5_counterexample :
    wait_pv true "EnergyWait" 0 (-(1:ℚ)/2) (fun _ => 1) (fun _ => 1/100) 5
      = some (0, WaitPvResult.raised (Exc.timeoutError "EnergyWait" 0 (-(1:ℚ)/2))) := by
  have h1 : ((1:ℚ) ≠ 0) := by norm_num
  have h2 : (-(1:ℚ)/2) > -1 := by norm_num
  have h3 : ((1:ℚ)/100 ≥ -(1:ℚ)/2) := by norm_num
  show wait_pv_runAux "EnergyWait" 0 (-(1:ℚ)/2) (fun _ => 1) (fun _ => 1/100) 5 0
      = some (0, WaitPvResult.raised (Exc.timeoutError "EnergyWait" 0 (-(1:ℚ)/2)))
  simp only [wait_pv_runAux]
  rw [if_pos h1, if_pos h2, if_pos h3]

/-- C5 (amended): for every timeout at most -1 — in particular every integer
timeout strictly below 0, the documented type of the parameter — wait_pv on
an attached session never raises: whenever the loop stops, it stops by
returning True at a poll whose value equals the target, regardless of
elapsed time. -/
theorem C5_wait_forever (pvName : String) (target timeout : ℚ) (readAt elapsedAt : ℕ → ℚ)
    (hT : timeout ≤ -1) :
    ∀ fuel k r, wait_pv true pvName target timeout readAt elapsedAt fuel = some (k, r) →
      r = WaitPvResult.retTrue ∧ readAt k = target := by
  intro fuel k r h
  exact wait_pv_no_timeout_aux pvName target timeout readAt elapsedAt hT fuel 0 k r h

/-- C5 witness: the amended statement evaluated at timeout -1 with a value
that first matches the target 0 at poll 2. -/
theorem C5_witness :
    ((-1:ℚ) ≤ -1) ∧
    (∀ fuel k r, wait_pv true "EnergyWait" 0 (-1)
        (fun j => if j = 2 then (0:ℚ) else 1) (fun _ => 0) fuel = some (k, r) →
      r = WaitPvResult.retTrue ∧ (if k = 2 then (0:ℚ) else 1) = 0) :=
  ⟨le_refl (-1), C5_wait_forever "EnergyWait" 0 (-1)
    (fun j => if j = 2 then (0:ℚ) else 1) (fun _ => 0) (le_refl (-1))⟩

/-- C6: with timeout T at least 0 on an attached session whose attribute
never equals the target, wait_pv raises exactly the Timeout error carrying
the attribute name, the target value and the timeout duration, and it does
so at a poll whose elapsed wall time has reached T, every earlier poll
having elapsed less than T (raises only after T, not before); moreover the
loop does stop once some poll within fuel has elapsed at least T. -/
theorem C6_timeout_behavior (pvName : String) (target T : ℚ) (readAt elapsedAt : ℕ → ℚ)
    (hT : 0 ≤ T) (hne : ∀ k, readAt k ≠ target) :
    (∀ fuel k r, wait_pv true pvName target T readAt elapsedAt fuel = some (k, r) →
        r = WaitPvResult.raised (Exc.timeoutError pvName target T) ∧ T ≤ elapsedAt k ∧
        ∀ j, j < k → elapsedAt j < T)
    ∧ (∀ k fuel, k < fuel → T ≤ elapsedAt k →
        ∃ p, wait_pv true pvName target T readAt elapsedAt fuel = some p) := by
  constructor
  · intro fuel k r h
    have h2 : wait_pv_runAux pvName target T readAt elapsedAt fuel 0 = some (k, r) := h
    obtain ⟨hr, _, hTe, hb⟩ :=
      wait_pv_sound_aux pvName target T readAt elapsedAt hT hne fuel 0 k r h2
    exact ⟨hr, hTe, fun j hj => hb j (Nat.zero_le j) hj⟩
  · intro k fuel h1 h2
    exact wait_pv_term_aux pvName target T readAt elapsedAt hT hne fuel 0 k
      (Nat.zero_le k) (by omega) h2

/-- C6 witness: the statement evaluated with timeout 2, a constant mismatch
value 1 against target 0, and elapsed time k at poll k. -/
theorem C6_witness :
    ((0:ℚ) ≤ 2 ∧ ∀ _k : ℕ, (1:ℚ) ≠ 0) ∧
    ((∀ fuel k r, wait_pv true "EnergyWait" 0 2 (fun _ => 1) (fun j => (j : ℚ)) fuel
          = some (k, r) →
        r = WaitPvResult.raised (Exc.timeoutError "EnergyWait" 0 2) ∧ 2 ≤ ((k : ℕ) : ℚ) ∧
        ∀ j, j < k → ((j : ℕ) : ℚ) < 2)
    ∧ (∀ k fuel, k < fuel → 2 ≤ ((k : ℕ) : ℚ) →
        ∃ p, wait_pv true "EnergyWait" 0 2 (fun _ => 1) (fun j => (j : ℚ)) fuel = some p)) :=
  ⟨⟨by norm_num, fun _ => by norm_num⟩,
    C6_timeout_behavior "EnergyWait" 0 2 (fun _ => 1) (fun j => (j : ℚ))
      (by norm_num) (fun _ => by norm_num)⟩

/-- Helper: when the flush_pvs polling loop stops at tick t, every queued
proxy reported put_complete at t. -/
theorem flushAux_sound (completeAt : ℕ → String → Bool) (q : List String) :
    ∀ fuel t0 t, flushAux completeAt q fuel t0 = some t →
      q.all (fun pv => completeAt t pv) = true := by
  intro fuel
  induction fuel with
  | zero => intro t0 t h; simp [flushAux] at h
  | succ n ih =>
    intro t0 t h
    simp only [flushAux] at h
    by_cases hq : q.all (fun pv => completeAt t0 pv) = true
    · rw [if_pos hq] at h
      obtain rfl : t0 = t := by simpa using h
      exact hq
    · rw [if_neg hq] at h
      exact ih (t0 + 1) t h

/-- Helper: when flush_pvs on session i returns, every member of the queue
that session i saw reported put_complete at the returned tick, and session
i's queue is the empty instance list afterwards. -/
theorem flushSession_spec (completeAt : ℕ → String → Bool) (st : MultiState) (i fuel t0 : ℕ)
    (st2 : MultiState) (t : ℕ)
    (h : TXM.flushSession completeAt st i fuel t0 = some (st2, t)) :
    (∀ pv ∈ st.currentQueue i, completeAt t pv = true) ∧ st2.currentQueue i = [] := by
  unfold TXM.flushSession at h
  cases hfa : flushAux completeAt (st.currentQueue i) fuel t0 with
  | none => rw [hfa] at h; simp at h
  | some t1 =>
    rw [hfa] at h
    simp only [Option.map_some', Option.some.injEq, Prod.mk.injEq] at h
    obtain ⟨hst, ht⟩ := h
    subst ht
    subst hst
    constructor
    · intro pv hpv
      have hall := flushAux_sound completeAt (st.currentQueue i) fuel t0 t1 hfa
      exact List.all_eq_true.mp hall pv hpv
    · simp [MultiState.currentQueue]

/-- C9: entering wait_pvs (opening a batch) on session i first blocks inside
flush_pvs until every member of the still-pending previous batch reports
put_complete, and the state it returns gives session i an empty queue: the
new batch starts with no members, and since opening drained the old batch
synchronously before starting the new one, at most one batch is ever open. -/
theorem C9_open_drains_then_empty (completeAt : ℕ → String → Bool) (st : MultiState)
    (i fuel t0 : ℕ) (st2 : MultiState) (t : ℕ)
    (h : TXM.wait_pvs_open completeAt st i fuel t0 = some (st2, t)) :
    (∀ pv ∈ st.currentQueue i, completeAt t pv = true) ∧ st2.currentQueue i = [] := by
  unfold TXM.wait_pvs_open at h
  cases hfs : TXM.flushSession completeAt st i fuel t0 with
  | none => rw [hfs] at h; simp at h
  | some p =>
    obtain ⟨p1, p2⟩ := p
    rw [hfs] at h
    simp only [Option.map_some', Option.some.injEq, Prod.mk.injEq] at h
    obtain ⟨hst, ht⟩ := h
    subst ht
    subst hst
    obtain ⟨hall, _⟩ := flushSession_spec completeAt st i fuel t0 p1 p2 hfs
    exact ⟨hall, by simp [MultiState.currentQueue]⟩

/-- C9 witness: a shared queue holding one pending write that completes from
tick 1 on; opening a batch on session 0 returns at tick 1, when the member
was complete, and leaves session 0 with an empty queue. -/
theorem C9_witness :
    (∀ pv ∈ flushDemoSt.currentQueue 0, completeAtW 1 pv = true) ∧
    flushDemoEnd.currentQueue 0 = [] :=
  C9_open_drains_then_empty completeAtW flushDemoSt 0 3 0 flushDemoEnd 1 rfl

/-- C10: a descriptor write on an attached session with permit always
registers the proxy (TxmPV.__set__ appends it to txm.pv_queue with no
batch-open precondition); the append lands in session i's queue — and when
neither session i nor session j has opened a batch yet, both still read the
shared class-level list, so the write is visible to session j as well; and
the queue is emptied by flush_pvs, which returns only at a tick where every
queued member reported completion and leaves session i with an empty
queue. -/
theorem C10_queue_discipline (st : MultiState) (i : ℕ) (cfg : PvConfig) (pvSt : PvState)
    (val : ℚ) :
    (TXM.txmWrite st i cfg true true pvSt val).2.queued = true
    ∧ (TXM.txmWrite st i cfg true true pvSt val).1.currentQueue i
        = st.currentQueue i ++ [cfg.name]
    ∧ (∀ j, st.instQueues i = none → st.instQueues j = none →
        (TXM.txmWrite st i cfg true true pvSt val).1.currentQueue j
          = st.currentQueue j ++ [cfg.name])
    ∧ (∀ completeAt fuel t0 st2 t,
        TXM.flushSession completeAt st i fuel t0 = some (st2, t) →
          (∀ pv ∈ st.currentQueue i, completeAt t pv = true) ∧ st2.currentQueue i = []) := by
  have hq : (TxmPV.set cfg true true pvSt val).queued = true := by
    cases hw : cfg.wait <;> simp [TxmPV.set, hw]
  refine ⟨?_, ?_, ?_, ?_⟩
  · simpa [TXM.txmWrite] using hq
  · simp only [TXM.txmWrite, hq, if_pos]
    unfold MultiState.appendPv MultiState.currentQueue
    cases hinst : st.instQueues i with
    | none => simp [hinst]
    | some q => simp [hinst]
  · intro j hi hj
    simp only [TXM.txmWrite, hq, if_pos]
    unfold MultiState.appendPv MultiState.currentQueue
    simp [hi, hj]
  · intro completeAt fuel t0 st2 t h
    exact flushSession_spec completeAt st i fuel t0 st2 t h

/-- C10 witness: the statement evaluated on a two-session state with the
empty shared class queue, session 0 writing through the DCMmvt
descriptor. -/
theorem C10_witness :
    (TXM.txmWrite c10St 0 dcmMvtCfg true true pvState0 3).2.queued = true
    ∧ (TXM.txmWrite c10St 0 dcmMvtCfg true true pvState0 3).1.currentQueue 0
        = c10St.currentQueue 0 ++ [dcmMvtCfg.name]
    ∧ (∀ j, c10St.instQueues 0 = none → c10St.instQueues j = none →
        (TXM.txmWrite c10St 0 dcmMvtCfg true true pvState0 3).1.currentQueue j
          = c10St.currentQueue j ++ [dcmMvtCfg.name])
    ∧ (∀ completeAt fuel t0 st2 t,
        TXM.flushSession completeAt c10St 0 fuel t0 = some (st2, t) →
          (∀ pv ∈ c10St.currentQueue 0, completeAt t pv = true)
            ∧ st2.currentQueue 0 = []) :=
  C10_queue_discipline c10St 0 dcmMvtCfg pvState0 3

/-- C4: the first wait_pvs batch of move_energy does NOT register three
control-point writes.  The source line self.ZpLocation = ZP_WD assigns a
plain instance attribute — class TXM declares no descriptor named
ZpLocation — so inside the first batch only the monochromator energy
(DCMputEnergy) and the undulator-gap energy (GAPputEnergy) are descriptor
writes, and on an attached session with permit those two are exactly the
writes registered in the batch that its close waits on; the zone-plate
working-distance value never reaches any control point.  Shown here at the
failing input energy 8 keV (in range), constant_mag true, gap_offset 0,
with the default readings (previous energy 8.6 = 43/5 keV, detector motor
500), for every square-root implementation, together with the fact that
move_energy with permit returns exactly this trace. -/
theorem C4_zone_plate_write_missing (sqrtFn : ℚ → ℚ) :
    firstBatchCpWrites (move_energy_writes 8 true 0 (43/5) 500 180 60 sqrtFn)
      = ["DCMputEnergy", "GAPputEnergy"]
    ∧ firstBatchPlainAttrs (move_energy_writes 8 true 0 (43/5) 500 180 60 sqrtFn)
      = ["ZpLocation"]
    ∧ "ZpLocation" ∉ txmPvNames
    ∧ move_energy true 8 true 0 (43/5) 500 180 60 sqrtFn
      = Except.ok (move_energy_writes 8 true 0 (43/5) 500 180 60 sqrtFn) := by
  refine ⟨?_, ?_, by decide, ?_⟩
  · rfl
  · rfl
  · have hin : E_RANGE.1 ≤ (8:ℚ) ∧ (8:ℚ) ≤ E_RANGE.2 := by
      constructor <;> norm_num [E_RANGE]
    simp [move_energy, hin]

/-- C4 witness: the statement instantiated at the identity in place of the
square root. -/
theorem C4_witness :
    firstBatchCpWrites (move_energy_writes 8 true 0 (43/5) 500 180 60 (fun q => q))
      = ["DCMputEnergy", "GAPputEnergy"]
    ∧ firstBatchPlainAttrs (move_energy_writes 8 true 0 (43/5) 500 180 60 (fun q => q))
      = ["ZpLocation"]
    ∧ "ZpLocation" ∉ txmPvNames
    ∧ move_energy true 8 true 0 (43/5) 500 180 60 (fun q => q)
      = Except.ok (move_energy_writes 8 true 0 (43/5) 500 180 60 (fun q => q)) :=
  C4_zone_plate_write_missing (fun q => q)

/-- C7: move_energy called with permit held and an energy outside the closed
range E_RANGE = [5, 10] keV raises the energy-range error carrying the
attempted value and both bounds, and returns no event trace at all: the
range check precedes every read, write, batch and wait of the body, so zero
control-point writes are issued. -/
theorem C7_out_of_range (energy : ℚ) (constant_mag : Bool)
    (gap_offset prev_energy curr_CCD zp_diameter drn : ℚ) (sqrtFn : ℚ → ℚ)
    (hout : ¬ (E_RANGE.1 ≤ energy ∧ energy ≤ E_RANGE.2)) :
    move_energy true energy constant_mag gap_offset prev_energy curr_CCD zp_diameter drn
        sqrtFn
      = Except.error (Exc.energyError energy 5 10) := by
  have hm : move_energy true energy constant_mag gap_offset prev_energy curr_CCD zp_diameter
        drn sqrtFn
      = if E_RANGE.1 ≤ energy ∧ energy ≤ E_RANGE.2 then
          Except.ok (move_energy_writes energy constant_mag gap_offset prev_energy curr_CCD
            zp_diameter drn sqrtFn)
        else Except.error (Exc.energyError energy E_RANGE.1 E_RANGE.2) := rfl
  rw [hm, if_neg hout]
  rfl

/-- C7 witness: the spec example — range (5, 10) keV, energy 12 — yields the
energy-range error with the attempted value 12 and the bounds 5 and 10, and
no motor movement. -/
theorem C7_witness :
    (¬ (E_RANGE.1 ≤ (12:ℚ) ∧ (12:ℚ) ≤ E_RANGE.2)) ∧
    move_energy true 12 true 0 (43/5) 500 180 60 (fun q => q)
      = Except.error (Exc.energyError 12 5 10) :=
  ⟨by decide, C7_out_of_range 12 true 0 (43/5) 500 180 60 (fun q => q) (by decide)⟩
